import Mathlib

/-!
Shallow embedding of the WaveView backend (src/app.py) and proofs about it.

Numeric values carried by the conditions records are modelled over an
arbitrary linear ordered field (instantiated at ℚ when a concrete
evaluation is needed).  Every comparison and arithmetic operation the
code performs on these values is exact at the magnitudes involved, so
this models the Python float computations faithfully.  External effects
(the marine-data HTTP call, the random number generator, the clock and
the text-generation service) are modelled as explicit parameters that
describe the outcome of the corresponding call.
-/

namespace WaveView

variable {α : Type} [LinearOrderedField α]

/-- Entry of the `SURF_LOCATIONS` registry (src/app.py lines 29-60). -/
structure Location where
  name : String
  lat : ℚ
  lon : ℚ
  description : String
deriving DecidableEq

/-- The `SURF_LOCATIONS['malibu']` entry, also used as the default in the
fallback `SURF_LOCATIONS.get(location_id, SURF_LOCATIONS['malibu'])`. -/
def MALIBU : Location :=
  ⟨"Malibu", 34037/1000, -118677/1000, "Famous point break in Southern California"⟩

/-- The surf locations registry, an insertion-ordered map modelled as an
association list (Python dicts preserve insertion order). -/
def SURF_LOCATIONS : List (String × Location) :=
  [("malibu", MALIBU),
   ("pipeline", ⟨"Pipeline", 216644/10000, -1580533/10000,
      "World-famous reef break on North Shore"⟩),
   ("teahupoo", ⟨"Teahupoo", -178444/10000, -1492672/10000,
      "Heavy reef break known for massive barrels"⟩),
   ("waimea", ⟨"Waimea Bay", 216389/10000, -1580667/10000,
      "Big wave spot on North Shore"⟩),
   ("jaws", ⟨"Jaws (Peahi)", 209333/10000, -1563000/10000,
      "Epic big wave spot on Maui"⟩)]

/-- Conditions record: the dictionary produced by the fetcher, viewed at the
record level (the fields every produced dict carries, in production order). -/
structure SurfData (α : Type) where
  location_name : String
  wave_height : α
  wave_period : α
  wave_direction : String
  wind_speed : α
  wind_direction : String
  temperature : α
  swell_height : α
  swell_period : α
  swell_direction : String
  tide_height : α
  timestamp : String

/-- Values stored in a conditions dictionary (numbers or strings). -/
inductive JVal (α : Type) where
  | num (x : α)
  | str (s : String)

/-- A Python `Dict[str, Any]` as returned by the two data producers,
modelled as an association list in literal key order. -/
abbrev SurfDict (α : Type) := List (String × JVal α)

/-- Outcomes of the random draws performed by `generate_mock_surf_data`
(`random.uniform` / `random.choice` calls, after rounding). -/
structure RandDraws (α : Type) where
  wave_height : α
  wave_period : α
  wave_direction : String
  wind_speed : α
  wind_direction : String
  temperature : α
  swell_direction : String
  tide_height : α

/-- Embedding of `generate_mock_surf_data` (src/app.py lines 128-148): the
returned dict literal, with the random draws and the clock made explicit. -/
def generate_mock_surf_data (location : Location) (r : RandDraws α) (now : String) :
    SurfDict α :=
  [("location_name", .str location.name),
   ("wave_height", .num r.wave_height),
   ("wave_period", .num r.wave_period),
   ("wave_direction", .str r.wave_direction),
   ("wind_speed", .num r.wind_speed),
   ("wind_direction", .str r.wind_direction),
   ("temperature", .num r.temperature),
   ("swell_height", .num r.wave_height),
   ("swell_period", .num r.wave_period),
   ("swell_direction", .str r.swell_direction),
   ("tide_height", .num r.tide_height),
   ("timestamp", .str now)]

/-- One data point of the provider response (`data['data'][0]`), with a field
absent from the payload modelled as `none` (mirrors `current.get(k, {})
.get('noaa', default)`). -/
structure ProviderPoint (α : Type) where
  waveHeight : Option α
  wavePeriod : Option α
  waveDirection : Option String
  windSpeed : Option α
  windDirection : Option String
  airTemperature : Option α

/-- The `{}` fallback used when the provider `data` array is empty. -/
def emptyPoint : ProviderPoint α := ⟨none, none, none, none, none, none⟩

/-- Outcome of the `requests.get` call plus JSON parsing: either some raised
exception (network error, malformed body, missing `data` key), or a parsed
response with its status code and `data` array. -/
inductive NetOutcome (α : Type) where
  | exn
  | ok (status_code : Nat) (data : List (ProviderPoint α))

/-- Embedding of `get_surf_data_from_api` (src/app.py lines 75-126).  The
network outcome, the random draws used on the fallback path and the clock
are explicit parameters. -/
def get_surf_data_from_api (location_id : String) (net : NetOutcome α)
    (r : RandDraws α) (now : String) : SurfDict α :=
  match SURF_LOCATIONS.lookup location_id with
  | none =>
    -- the `raise ValueError` is caught by the surrounding handler, which
    -- returns mock data for SURF_LOCATIONS.get(location_id, SURF_LOCATIONS['malibu'])
    generate_mock_surf_data ((SURF_LOCATIONS.lookup location_id).getD MALIBU) r now
  | some location =>
    match net with
    | .exn =>
      -- exception path: same fallback as above
      generate_mock_surf_data ((SURF_LOCATIONS.lookup location_id).getD MALIBU) r now
    | .ok status_code data =>
      if status_code = 200 then
        let current := data.headD emptyPoint
        [("location_name", .str location.name),
         ("wave_height", .num (current.waveHeight.getD 3)),
         ("wave_period", .num (current.wavePeriod.getD 10)),
         ("wave_direction", .str (current.waveDirection.getD "SW")),
         ("wind_speed", .num (current.windSpeed.getD 10)),
         ("wind_direction", .str (current.windDirection.getD "NW")),
         ("temperature", .num (current.airTemperature.getD 20)),
         ("swell_height", .num (current.waveHeight.getD 3)),
         ("swell_period", .num (current.wavePeriod.getD 10)),
         ("swell_direction", .str (current.waveDirection.getD "SW")),
         ("tide_height", .num (1/2)),
         ("timestamp", .str now)]
      else
        -- non-200 status: fallback to mock data for the found location
        generate_mock_surf_data location r now

/-- Keys that a fully populated conditions dictionary must carry. -/
def surfDataFields : List String :=
  ["location_name", "wave_height", "wave_period", "wave_direction", "wind_speed",
   "wind_direction", "temperature", "swell_height", "swell_period",
   "swell_direction", "tide_height", "timestamp"]

/-- Accumulated value of the local `score` variable of
`calculate_wave_quality` just before the final cap (src/app.py lines
225-260): the variable starts at 0 and each factor adds its points. -/
def raw_score (surf_data : SurfData α) : α :=
  (0 : α)
  + (if 3 ≤ surf_data.wave_height ∧ surf_data.wave_height ≤ 8 then 30
     else if 2 ≤ surf_data.wave_height ∧ surf_data.wave_height ≤ 10 then 20
     else 10)
  + (if 10 ≤ surf_data.wave_period ∧ surf_data.wave_period ≤ 16 then 25
     else if 8 ≤ surf_data.wave_period ∧ surf_data.wave_period ≤ 18 then 15
     else 5)
  + (if surf_data.wind_speed ≤ 10 then 25
     else if surf_data.wind_speed ≤ 15 then 15
     else 5)
  + (if 3 ≤ surf_data.swell_height ∧ 10 ≤ surf_data.swell_period then 20
     else 10)

/-- Embedding of `calculate_wave_quality` (src/app.py lines 220-262):
`return min(score, 100.0)`. -/
def calculate_wave_quality (surf_data : SurfData α) : α :=
  min (raw_score surf_data) 100

/-- Outcome of the chat-completions call made by the narrative reporter:
either a response whose first choice carries `content`, or a raised
exception whose `str(e)` is `msg`. -/
inductive GptOutcome where
  | ok (content : String)
  | err (msg : String)

/-- Dictionary returned by `analyze_surf_conditions_with_gpt`. -/
structure AnalysisResult (α : Type) where
  analysis : String
  surf_data : SurfData α
  timestamp : String

/-- The prompt f-string of `analyze_surf_conditions_with_gpt` (src/app.py
lines 156-190), with the record fields interpolated. -/
def build_prompt (surf_data : SurfData ℚ) : String :=
  "You are a professional surf analyst and ASCII artist. Analyze these surf conditions and create a detailed report:\n\n"
  ++ "Location: " ++ surf_data.location_name ++ "\n"
  ++ "Wave Height: " ++ toString surf_data.wave_height ++ " feet\n"
  ++ "Wave Period: " ++ toString surf_data.wave_period ++ " seconds\n"
  ++ "Wave Direction: " ++ surf_data.wave_direction ++ "\n"
  ++ "Wind Speed: " ++ toString surf_data.wind_speed ++ " mph\n"
  ++ "Wind Direction: " ++ surf_data.wind_direction ++ "\n"
  ++ "Temperature: " ++ toString surf_data.temperature ++ "°C\n"
  ++ "Swell Height: " ++ toString surf_data.swell_height ++ " feet\n"
  ++ "Swell Period: " ++ toString surf_data.swell_period ++ " seconds\n"
  ++ "Swell Direction: " ++ surf_data.swell_direction ++ "\n"
  ++ "Tide: " ++ toString surf_data.tide_height ++ " feet\n\n"
  ++ "Please provide the analysis in this EXACT format:\n\n"
  ++ "**WAVE VISUALIZATION:**\n"
  ++ "[Create an ASCII wave using this style:\n\n"
  ++ " _.====.._\n,:._       ~-_\n    `\\        ~-_\n      | _  _  |  `.\n    ,/ /_)/ | |    ~-_\n-..__..-\x27\x27  \\_ \\_\\ `_      ~~--..__]\n\n"
  ++ "**SURF ANALYSIS:**\n"
  ++ "- Wave Quality: [analysis]\n- Difficulty Level: [analysis]\n- Conditions: [analysis]\n- Key Insights: [recommendations]\n- Safety: [considerations]\n- Best Time: [when to surf]\n"

/-- Embedding of `analyze_surf_conditions_with_gpt` (src/app.py lines
150-218).  The text-generation service is a parameter mapping the submitted
prompt to an outcome; the `except` branch returns the error message as the
`analysis` field. -/
def analyze_surf_conditions_with_gpt (surf_data : SurfData ℚ)
    (gpt : String → GptOutcome) (now : String) : AnalysisResult ℚ :=
  match gpt (build_prompt surf_data) with
  | .ok content => ⟨content, surf_data, now⟩
  | .err e => ⟨"Error analyzing conditions: " ++ e, surf_data, now⟩

/-- Entry appended to `spots_data` for each registered location
(src/app.py lines 276-282). -/
structure SpotEntry (α : Type) where
  location_id : String
  location_name : String
  wave_height : α
  quality_score : α
  surf_data : SurfData α

/-- First phase of `sort_surf_spots_by_conditions` (src/app.py lines
269-284): one entry per registered location, in registry iteration order,
with the fetched conditions made an explicit parameter. -/
def build_spots_data (fetch : String → SurfData α) : List (SpotEntry α) :=
  (SURF_LOCATIONS.map Prod.fst).map (fun location_id =>
    let surf_data := fetch location_id
    ⟨location_id, surf_data.location_name, surf_data.wave_height,
     calculate_wave_quality surf_data, surf_data⟩)

/-- Inner loop of the bubble sort (src/app.py lines 289-291): `m` successive
compare-and-swap steps on adjacent positions starting at the front, swapping
when the left score is strictly below the right one. -/
def bubble_pass : Nat → List (SpotEntry α) → List (SpotEntry α)
  | 0, spots => spots
  | _ + 1, [] => []
  | _ + 1, [x] => [x]
  | m + 1, x :: y :: rest =>
    if x.quality_score < y.quality_score then y :: bubble_pass m (x :: rest)
    else x :: bubble_pass m (y :: rest)

/-- Outer loop of the bubble sort (src/app.py lines 287-291): with `k`
passes left, the next pass performs `k - 1` compare-and-swap steps
(the source's `range(0, n - i - 1)` with `k = n - i`). -/
def bubble_passes : Nat → List (SpotEntry α) → List (SpotEntry α)
  | 0, spots => spots
  | k + 1, spots => bubble_passes k (bubble_pass k spots)

/-- Embedding of `sort_surf_spots_by_conditions` (src/app.py lines
264-293). -/
def sort_surf_spots_by_conditions (fetch : String → SurfData α) :
    List (SpotEntry α) :=
  let spots_data := build_spots_data fetch
  bubble_passes spots_data.length spots_data

/-- Sortedness in weakly decreasing quality-score order. -/
abbrev ScoreSorted (spots : List (SpotEntry α)) : Prop :=
  List.Pairwise (fun a b => b.quality_score ≤ a.quality_score) spots

/-- Concrete random draws, used by concrete evaluations. -/
def exampleDraws : RandDraws ℚ := ⟨4, 9, "W", 12, "N", 21, "S", 1⟩

/-- Concrete conditions record with the §8 perfect-score field values. -/
def exampleSurfData : SurfData ℚ :=
  ⟨"Malibu", 5, 12, "SW", 8, "NW", 20, 4, 11, "SW", 1/2, "2026-01-01T00:00:00"⟩

/-- Concrete record agreeing with `exampleSurfData` on the five scored
fields and differing everywhere else. -/
def exampleSurfData2 : SurfData ℚ :=
  ⟨"Pipeline", 5, 12, "N", 8, "S", -3, 4, 11, "E", 2, "2026-02-02T00:00:00"⟩

/-- C1: the quality scorer is total and bounded: for every conditions
record, whatever the values of its numeric fields, the score lies in
[0, 100]. -/
theorem calculate_wave_quality_bounded (surf_data : SurfData α) :
    0 ≤ calculate_wave_quality surf_data ∧ calculate_wave_quality surf_data ≤ 100 := by
  constructor
  · apply le_min _ (by norm_num)
    unfold raw_score
    split_ifs <;> norm_num
  · exact min_le_right _ _

/-- C8: for every conditions record the raw sum of the four factor points
is at most 100, so the final cap `min score 100` is the identity. -/
theorem raw_score_cap_noop (surf_data : SurfData α) :
    raw_score surf_data ≤ 100 ∧ calculate_wave_quality surf_data = raw_score surf_data := by
  have h : raw_score surf_data ≤ 100 := by
    unfold raw_score
    split_ifs <;> norm_num
  exact ⟨h, min_eq_left h⟩

/-- C9: the record with wave height 5, wave period 12, wind speed 8, swell
height 4 and swell period 11 scores exactly 100. -/
theorem calculate_wave_quality_perfect :
    calculate_wave_quality exampleSurfData = 100 := by
  norm_num [calculate_wave_quality, raw_score, exampleSurfData]

/-- C10: the quality score depends only on wave height, wave period, wind
speed, swell height and swell period: two records agreeing on these five
fields score the same, whatever their other fields. -/
theorem calculate_wave_quality_score_fields_only (d1 d2 : SurfData α)
    (h1 : d1.wave_height = d2.wave_height) (h2 : d1.wave_period = d2.wave_period)
    (h3 : d1.wind_speed = d2.wind_speed) (h4 : d1.swell_height = d2.swell_height)
    (h5 : d1.swell_period = d2.swell_period) :
    calculate_wave_quality d1 = calculate_wave_quality d2 := by
  unfold calculate_wave_quality raw_score
  rw [h1, h2, h3, h4, h5]

/-- Witness for C10: two concrete records differing in name, directions,
temperature, tide height and timestamp score the same. -/
theorem calculate_wave_quality_score_fields_only_witness :
    calculate_wave_quality exampleSurfData = calculate_wave_quality exampleSurfData2 :=
  calculate_wave_quality_score_fields_only exampleSurfData exampleSurfData2
    rfl rfl rfl rfl rfl

/-- C7: the scorer is monotone in wind-speed-goodness: a record with wind
speed 5 scores at least the otherwise-identical record with wind speed 20. -/
theorem calculate_wave_quality_wind_monotone (surf_data : SurfData α) :
    calculate_wave_quality { surf_data with wind_speed := 20 } ≤
      calculate_wave_quality { surf_data with wind_speed := 5 } := by
  apply min_le_min _ le_rfl
  unfold raw_score
  dsimp only
  have h20 : ¬((20 : α) ≤ 10) := by norm_num
  have h20b : ¬((20 : α) ≤ 15) := by norm_num
  have h5 : (5 : α) ≤ 10 := by norm_num
  rw [if_neg h20, if_neg h20b, if_pos h5]
  gcongr
  norm_num

/-- C3: for a location identifier absent from the registry, the fetcher
propagates no error: the raised lookup failure is caught and the call
returns the default (Malibu) synthetic conditions record. -/
theorem get_surf_data_unknown_location (location_id : String) (net : NetOutcome α)
    (r : RandDraws α) (now : String) (h : SURF_LOCATIONS.lookup location_id = none) :
    get_surf_data_from_api location_id net r now = generate_mock_surf_data MALIBU r now := by
  simp only [get_surf_data_from_api, h, Option.getD_none]

/-- Witness for C3: the unregistered identifier "atlantis" yields Malibu's
synthetic record. -/
theorem get_surf_data_unknown_location_witness :
    SURF_LOCATIONS.lookup "atlantis" = (none : Option Location) ∧
      get_surf_data_from_api "atlantis" (NetOutcome.exn (α := ℚ)) exampleDraws "t" =
        generate_mock_surf_data MALIBU exampleDraws "t" :=
  ⟨rfl, get_surf_data_unknown_location "atlantis" _ _ _ rfl⟩

/-- C4: every dictionary the fetcher produces — on the provider-success
path (with defaults for missing provider fields) and on every synthetic
fallback path — carries exactly the full field list, in order; no reachable
outcome yields a partially populated record. -/
theorem get_surf_data_all_fields (location_id : String) (net : NetOutcome α)
    (r : RandDraws α) (now : String) :
    (get_surf_data_from_api location_id net r now).map Prod.fst = surfDataFields := by
  unfold get_surf_data_from_api
  cases h : SURF_LOCATIONS.lookup location_id with
  | none => simp [generate_mock_surf_data, surfDataFields]
  | some location =>
    cases net with
    | exn => simp [generate_mock_surf_data, surfDataFields]
    | ok status_code data =>
      by_cases h2 : status_code = 200 <;>
        simp [h2, generate_mock_surf_data, surfDataFields]

omit [LinearOrderedField α] in
/-- C5: whatever the random draws, the synthetic generator's swell height
equals its wave height and its swell period equals its wave period. -/
theorem generate_mock_swell_mirrors_wave (location : Location) (r : RandDraws α)
    (now : String) :
    (generate_mock_surf_data location r now).lookup "swell_height" =
        (generate_mock_surf_data location r now).lookup "wave_height" ∧
      (generate_mock_surf_data location r now).lookup "swell_period" =
        (generate_mock_surf_data location r now).lookup "wave_period" :=
  ⟨rfl, rfl⟩

/-- C6: the narrative reporter never raises: whenever the text-generation
call fails, the reporter returns the error message as the analysis text,
paired with the input record and the timestamp. -/
theorem analyze_surf_conditions_error_path (surf_data : SurfData ℚ)
    (gpt : String → GptOutcome) (now : String) (e : String)
    (h : gpt (build_prompt surf_data) = GptOutcome.err e) :
    analyze_surf_conditions_with_gpt surf_data gpt now =
      ⟨"Error analyzing conditions: " ++ e, surf_data, now⟩ := by
  unfold analyze_surf_conditions_with_gpt
  rw [h]

/-- Witness for C6: a service that always fails yields the error analysis
paired with the input record and timestamp. -/
theorem analyze_surf_conditions_error_path_witness :
    (fun _ : String => GptOutcome.err "boom") (build_prompt exampleSurfData) =
        GptOutcome.err "boom" ∧
      analyze_surf_conditions_with_gpt exampleSurfData
          (fun _ => GptOutcome.err "boom") "t" =
        ⟨"Error analyzing conditions: " ++ "boom", exampleSurfData, "t"⟩ :=
  ⟨rfl, analyze_surf_conditions_error_path exampleSurfData _ "t" "boom" rfl⟩

/-- A compare-and-swap pass preserves the list length. -/
theorem bubble_pass_length (m : Nat) (spots : List (SpotEntry α)) :
    (bubble_pass m spots).length = spots.length := by
  induction m generalizing spots with
  | zero => rfl
  | succ m ih =>
    match spots with
    | [] => rfl
    | [x] => rfl
    | x :: y :: rest =>
      simp only [bubble_pass]
      split <;> simp [ih]

/-- A compare-and-swap pass permutes the list. -/
theorem bubble_pass_perm (m : Nat) (spots : List (SpotEntry α)) :
    (bubble_pass m spots).Perm spots := by
  induction m generalizing spots with
  | zero => exact List.Perm.refl _
  | succ m ih =>
    match spots with
    | [] => exact List.Perm.refl _
    | [x] => exact List.Perm.refl _
    | x :: y :: rest =>
      simp only [bubble_pass]
      split
      · exact ((ih (x :: rest)).cons y).trans (List.Perm.swap x y rest)
      · exact (ih (y :: rest)).cons x

/-- A pass of `m` steps leaves positions beyond `m` untouched. -/
theorem bubble_pass_drop (m : Nat) (spots : List (SpotEntry α)) :
    (bubble_pass m spots).drop (m + 1) = spots.drop (m + 1) := by
  induction m generalizing spots with
  | zero => rfl
  | succ m ih =>
    match spots with
    | [] => rfl
    | [x] => rfl
    | x :: y :: rest =>
      simp only [bubble_pass]
      split
      · simpa using ih (x :: rest)
      · simpa using ih (y :: rest)

/-- A pass of `m` steps carries a minimum-score element of the first
`m + 1` positions to position `m`. -/
theorem bubble_pass_min (m : Nat) (spots : List (SpotEntry α)) (h : m + 1 ≤ spots.length) :
    ∃ c, (bubble_pass m spots).drop m = c :: spots.drop (m + 1) ∧
      c ∈ spots.take (m + 1) ∧
      ∀ x ∈ spots.take (m + 1), c.quality_score ≤ x.quality_score := by
  induction m generalizing spots with
  | zero =>
    cases spots with
    | nil => simp at h
    | cons x rest => exact ⟨x, rfl, by simp, by simp⟩
  | succ m ih =>
    match spots with
    | [] => simp at h
    | [x] => simp at h
    | x :: y :: rest =>
      have hlen : m + 1 ≤ rest.length + 1 := by
        simpa using Nat.le_of_succ_le_succ h
      simp only [bubble_pass]
      split
      case isTrue hlt =>
        obtain ⟨c, h1, h2, h3⟩ := ih (x :: rest) (by simpa using hlen)
        refine ⟨c, ?_, ?_, ?_⟩
        · simpa using h1
        · rw [List.take_succ_cons] at h2 ⊢
          rcases List.mem_cons.mp h2 with rfl | h2'
          · exact List.mem_cons_self _ _
          · exact List.mem_cons_of_mem _ (List.mem_cons_of_mem _ h2')
        · intro z hz
          rw [List.take_succ_cons] at hz h3
          rcases List.mem_cons.mp hz with rfl | hz'
          · exact h3 z (List.mem_cons_self _ _)
          · rcases List.mem_cons.mp hz' with rfl | hz''
            · exact le_of_lt (lt_of_le_of_lt (h3 x (List.mem_cons_self _ _)) hlt)
            · exact h3 z (List.mem_cons_of_mem _ hz'')
      case isFalse hge =>
        have hyx : y.quality_score ≤ x.quality_score := le_of_not_lt hge
        obtain ⟨c, h1, h2, h3⟩ := ih (y :: rest) (by simpa using hlen)
        refine ⟨c, ?_, ?_, ?_⟩
        · simpa using h1
        · rw [List.take_succ_cons] at h2 ⊢
          exact List.mem_cons_of_mem _ h2
        · intro z hz
          rw [List.take_succ_cons] at hz
          rcases List.mem_cons.mp hz with rfl | hz'
          · exact le_trans (h3 y (by simp)) hyx
          · exact h3 z (by simpa using hz')

/-- The outer loop permutes the list. -/
theorem bubble_passes_perm (k : Nat) (spots : List (SpotEntry α)) :
    (bubble_passes k spots).Perm spots := by
  induction k generalizing spots with
  | zero => exact List.Perm.refl _
  | succ k ih => exact (ih (bubble_pass k spots)).trans (bubble_pass_perm k spots)

/-- Invariant proof for the outer loop: if the suffix beyond position `k`
is already sorted and dominated by the first `k` positions, running the
remaining `k` passes sorts the whole list. -/
theorem bubble_passes_sorted (k : Nat) (spots : List (SpotEntry α)) (hk : k ≤ spots.length)
    (hsorted : ScoreSorted (spots.drop k))
    (hsep : ∀ x ∈ spots.take k, ∀ y ∈ spots.drop k, y.quality_score ≤ x.quality_score) :
    ScoreSorted (bubble_passes k spots) := by
  induction k generalizing spots with
  | zero => simpa using hsorted
  | succ k ih =>
    obtain ⟨c, h1, h2, h3⟩ := bubble_pass_min k spots hk
    have hlen : (bubble_pass k spots).length = spots.length := bubble_pass_length k spots
    have hperm : (bubble_pass k spots).Perm spots := bubble_pass_perm k spots
    have e2 : spots.take (k + 1) ++ spots.drop (k + 1) = spots := List.take_append_drop _ _
    have e3 : ((bubble_pass k spots).take k ++ [c]) ++ spots.drop (k + 1) =
        bubble_pass k spots := by
      rw [List.append_assoc, List.singleton_append, ← h1, List.take_append_drop]
    have hsplit : List.Perm ((bubble_pass k spots).take k ++ [c]) (spots.take (k + 1)) := by
      apply (List.perm_append_right_iff (spots.drop (k + 1))).mp
      rw [e3, e2]
      exact hperm
    apply ih (bubble_pass k spots) ?_ ?_ ?_
    · rw [hlen]; omega
    · rw [h1]
      refine List.pairwise_cons.mpr ⟨fun b hb => hsep c h2 b hb, hsorted⟩
    · intro x hx y hy
      rw [h1] at hy
      have hxtake : x ∈ spots.take (k + 1) := hsplit.subset (List.mem_append_left _ hx)
      rcases List.mem_cons.mp hy with rfl | hy'
      · exact h3 x hxtake
      · exact hsep x hxtake y hy'

/-- A pass does not change the subsequence of entries having any given
score: swaps happen only between entries with strictly different scores. -/
theorem bubble_pass_filter (m : Nat) (spots : List (SpotEntry α)) (s : α) :
    (bubble_pass m spots).filter (fun e => decide (e.quality_score = s)) =
      spots.filter (fun e => decide (e.quality_score = s)) := by
  induction m generalizing spots with
  | zero => rfl
  | succ m ih =>
    match spots with
    | [] => rfl
    | [x] => rfl
    | x :: y :: rest =>
      simp only [bubble_pass]
      split
      case isTrue hlt =>
        have hne : ¬(x.quality_score = s ∧ y.quality_score = s) := by
          rintro ⟨hx, hy⟩
          rw [hx, hy] at hlt
          exact lt_irrefl s hlt
        by_cases hx : x.quality_score = s
        · have hy : ¬y.quality_score = s := fun hy => hne ⟨hx, hy⟩
          simp [List.filter_cons, hx, hy, ih (x :: rest)]
        · by_cases hy : y.quality_score = s <;>
            simp [List.filter_cons, hx, hy, ih (x :: rest)]
      case isFalse hge =>
        simp [List.filter_cons, ih (y :: rest)]

/-- The outer loop does not change the subsequence of entries having any
given score. -/
theorem bubble_passes_filter (k : Nat) (spots : List (SpotEntry α)) (s : α) :
    (bubble_passes k spots).filter (fun e => decide (e.quality_score = s)) =
      spots.filter (fun e => decide (e.quality_score = s)) := by
  induction k generalizing spots with
  | zero => rfl
  | succ k ih =>
    rw [show bubble_passes (k + 1) spots = bubble_passes k (bubble_pass k spots) from rfl,
      ih, bubble_pass_filter]

/-- C2: for every set of fetched conditions, the rankings builder returns a
permutation of the fetched entries whose length is at most the number of
registered locations, sorted weakly descending by quality score, and in
which the entries carrying any given score appear exactly in their original
fetch order (stability). -/
theorem sort_surf_spots_correct (fetch : String → SurfData α) :
    (sort_surf_spots_by_conditions fetch).length ≤ SURF_LOCATIONS.length ∧
      ScoreSorted (sort_surf_spots_by_conditions fetch) ∧
      (sort_surf_spots_by_conditions fetch).Perm (build_spots_data fetch) ∧
      ∀ s : α,
        (sort_surf_spots_by_conditions fetch).filter (fun e => decide (e.quality_score = s)) =
          (build_spots_data fetch).filter (fun e => decide (e.quality_score = s)) := by
  have hperm : (sort_surf_spots_by_conditions fetch).Perm (build_spots_data fetch) :=
    bubble_passes_perm _ _
  refine ⟨?_, ?_, hperm, fun s => bubble_passes_filter _ _ s⟩
  · rw [hperm.length_eq]
    simp [build_spots_data]
  · apply bubble_passes_sorted _ _ le_rfl
    · simp
    · intro x hx y hy
      simp at hy

end WaveView
